import Mathlib

/-!
Shallow embedding of the Pulumi policy-pack sources (TypeScript) of this
repository: the container capability check, the image-tag check, the
Service LoadBalancer rule, the Helm v3/v4 OCI-registry rules of both
policy packs, the GPU instance-type rule, and the run-level aggregation
semantics. JavaScript string operations (`startsWith`, `endsWith`,
`includes`) are embedded as character-list operations; JavaScript
truthiness of optional strings (`undefined` or `""` are falsy) is made
explicit with `Option String` plus an emptiness test.
-/

set_option maxRecDepth 10000

namespace PolicyPack

/-- Embedding of JavaScript `s.startsWith(p)`: `p` is a character-wise
prefix of `s`. -/
def strStartsWith (s p : String) : Bool :=
  p.data.isPrefixOf s.data

/-- Embedding of JavaScript `s.endsWith(p)`: `p` is a character-wise
suffix of `s`. -/
def strEndsWith (s p : String) : Bool :=
  p.data.isSuffixOf s.data

/-- Embedding of JavaScript `s.includes(c)` for a one-character needle. -/
def strContainsChar (s : String) (c : Char) : Bool :=
  s.data.contains c

/-- Enforcement level of a policy rule, as the `enforcementLevel` field of
the policy definitions ("mandatory" or "advisory"). -/
inductive EnforcementLevel where
  | mandatory
  | advisory
deriving DecidableEq, Repr

/-- A policy rule as registered in the policy packs: name, enforcement
level, and a validation function from the resource name and the resource
to the list of violation messages it reports (in report order). -/
structure PolicyRule (ρ : Type) where
  name : String
  enforcementLevel : EnforcementLevel
  validateResource : String → ρ → List String

/-- Field `securityContext.capabilities` of a container: the optional `add`
list of requested capability names. -/
structure Capabilities where
  add : Option (List String)

/-- Field `securityContext` of a container. -/
structure SecurityContext where
  capabilities : Option Capabilities

/-- A Kubernetes container as the checks read it: `name`, optional
`image`, optional `securityContext`. -/
structure Container where
  name : String
  image : Option String
  securityContext : Option SecurityContext

/-- The static 13-entry capability allow-list of `checkCapabilities`. -/
def allowedCapabilities : List String :=
  [ "AUDIT_WRITE"
  , "CHOWN"
  , "DAC_OVERRIDE"
  , "FOWNER"
  , "FSETID"
  , "KILL"
  , "MKNOD"
  , "NET_BIND_SERVICE"
  , "SETFCAP"
  , "SETGID"
  , "SETPCAP"
  , "SETUID"
  , "SYS_CHROOT" ]

/-- Reading `container.securityContext?.capabilities?.add` (optional chaining). -/
def capsAdded (c : Container) : Option (List String) :=
  (c.securityContext.bind (·.capabilities)).bind (·.add)

/-- Message of one capability violation (source template string of
`checkCapabilities`). -/
def capViolationMsg (c : Container) (cap : String) : String :=
  "Container '" ++ c.name ++ "' adds capability '" ++ cap ++
    "' which is not in the allowed list. " ++
    "Only the following capabilities are allowed: " ++
    String.intercalate ", " allowedCapabilities ++ "."

/-- Per-container body of the `checkCapabilities` loop: for each requested
capability not in the allow-list, report one violation, in request order. -/
def checkCapabilitiesContainer (c : Container) : List String :=
  match capsAdded c with
  | none => []
  | some caps =>
      caps.flatMap fun cap =>
        if cap ∈ allowedCapabilities then [] else [capViolationMsg c cap]

/-- Function `checkCapabilities(containers, reportViolation)`: an `undefined`
container list reports nothing; otherwise each container is checked in
order. -/
def checkCapabilities : Option (List Container) → List String
  | none => []
  | some cs => cs.flatMap checkCapabilitiesContainer

/-- Missing-tag message of `checkImageTags`. -/
def missingTagMsg (c : Container) (image : String) : String :=
  "Container '" ++ c.name ++ "' uses image '" ++ image ++
    "' without a tag. An image tag is required."

/-- Mutable-latest-tag message of `checkImageTags`. -/
def latestTagMsg (c : Container) (image : String) : String :=
  "Container '" ++ c.name ++ "' uses image '" ++ image ++
    "' with mutable ':latest' tag. Using a mutable image tag is not allowed."

/-- Per-container body of the `checkImageTags` loop: a falsy image
(`undefined` or `""`) is skipped (`if (!image) continue`); an image with
no `:` gets the missing-tag violation; else an image ending in `:latest`
gets the mutable-tag violation; else nothing. -/
def checkImageTagsContainer (c : Container) : List String :=
  match c.image with
  | none => []
  | some image =>
      if image = "" then []
      else if !strContainsChar image ':' then [missingTagMsg c image]
      else if strEndsWith image ":latest" then [latestTagMsg c image]
      else []

/-- Function `checkImageTags(containers, reportViolation)`: an `undefined` container
list reports nothing; otherwise each container is checked in order. -/
def checkImageTags : Option (List Container) → List String
  | none => []
  | some cs => cs.flatMap checkImageTagsContainer

/-- A pod spec: the three optional container lists the rules read. -/
structure PodSpec where
  containers : Option (List Container)
  initContainers : Option (List Container)
  ephemeralContainers : Option (List Container)

/-- A pod template (`spec.template` of a workload controller): optional
`spec`. -/
structure PodTemplate where
  spec : Option PodSpec

/-- Field `spec` of a Deployment / StatefulSet / Job: optional `template`. -/
structure WorkloadSpec where
  template : Option PodTemplate

/-- A workload-controller resource (Deployment, StatefulSet, Job — the
three rule bodies in the source are identical): optional `spec`. -/
structure Workload where
  spec : Option WorkloadSpec

/-- A Pod resource: optional `spec`. -/
structure Pod where
  spec : Option PodSpec

/-- Reading `deployment.spec?.template?.spec` (and likewise for StatefulSet and
Job): the optional-chained descent to the pod spec. -/
def podSpecOf (w : Workload) : Option PodSpec :=
  (w.spec.bind (·.template)).bind (·.spec)

/-- Body of `disallow-capabilities` on a Pod (`if (pod.spec) { ... }`). -/
def disallowCapabilitiesPod (p : Pod) : List String :=
  match p.spec with
  | none => []
  | some ps =>
      checkCapabilities ps.containers ++ checkCapabilities ps.initContainers ++
        checkCapabilities ps.ephemeralContainers

/-- Body of `disallow-capabilities-deployment` (identically of
`-statefulset` and `-job`): descend `spec?.template?.spec`, check the
three container lists if present, otherwise report nothing. -/
def disallowCapabilitiesWorkload (w : Workload) : List String :=
  match podSpecOf w with
  | none => []
  | some ps =>
      checkCapabilities ps.containers ++ checkCapabilities ps.initContainers ++
        checkCapabilities ps.ephemeralContainers

/-- Body of `disallow-latest-tag` on a Pod. -/
def disallowLatestTagPod (p : Pod) : List String :=
  match p.spec with
  | none => []
  | some ps =>
      checkImageTags ps.containers ++ checkImageTags ps.initContainers ++
        checkImageTags ps.ephemeralContainers

/-- Body of `disallow-latest-tag-deployment` (identically of
`-statefulset` and `-job`). -/
def disallowLatestTagWorkload (w : Workload) : List String :=
  match podSpecOf w with
  | none => []
  | some ps =>
      checkImageTags ps.containers ++ checkImageTags ps.initContainers ++
        checkImageTags ps.ephemeralContainers

/-- Field `spec` of a Service: the optional `type` string. -/
structure ServiceSpec where
  type : Option String

/-- A Service resource: optional `spec`. -/
structure Service where
  spec : Option ServiceSpec

/-- Message of the `no-public-services` violation. -/
def loadBalancerMsg : String :=
  "Kubernetes Services cannot be of type LoadBalancer, which are exposed to " ++
    "anything that can reach the Kubernetes cluster. This likely including the " ++
    "public Internet."

/-- Body of `no-public-services`:
`if (svc.spec && svc.spec.type === "LoadBalancer") reportViolation(...)`. -/
def noPublicServicesValidate (svc : Service) : List String :=
  match svc.spec with
  | none => []
  | some sp => if sp.type = some "LoadBalancer" then [loadBalancerMsg] else []

/-- The `no-public-services` rule: mandatory. -/
def noPublicServicesRule : PolicyRule Service :=
  { name := "no-public-services"
  , enforcementLevel := .mandatory
  , validateResource := fun _ svc => noPublicServicesValidate svc }

/-- Field `repositoryOpts` of a Helm release/chart: the optional `repo` URL. -/
structure RepositoryOpts where
  repo : Option String

/-- A Helm v3 `Release` as the rules read it: optional `chart` string and
optional `repositoryOpts`. -/
structure HelmRelease where
  chart : Option String
  repositoryOpts : Option RepositoryOpts

/-- A Helm v4 `Chart` as the rules read it: same two fields. -/
structure HelmChart where
  chart : Option String
  repositoryOpts : Option RepositoryOpts

/-- Message of the `helm-v3-require-oci-registry` violation. -/
def helmV3NonOciMsg (name repo : String) : String :=
  "Helm v3 Release '" ++ name ++ "' uses non-OCI repository '" ++ repo ++ "'. " ++
    "Only OCI-based registries (oci://) are allowed. Traditional Helm repositories are not permitted."

/-- Body of `helm-v3-require-oci-registry` (first pack): only
`release.repositoryOpts?.repo` is inspected; a truthy repo not starting
with `oci://` is the single violation. The chart reference is never read. -/
def helmV3Validate (name : String) (release : HelmRelease) : List String :=
  match release.repositoryOpts.bind (·.repo) with
  | none => []
  | some repo =>
      if repo = "" then []
      else if !strStartsWith repo "oci://" then [helmV3NonOciMsg name repo]
      else []

/-- The `helm-v3-require-oci-registry` rule: mandatory. -/
def helmV3Rule : PolicyRule HelmRelease :=
  { name := "helm-v3-require-oci-registry"
  , enforcementLevel := .mandatory
  , validateResource := helmV3Validate }

/-- Message of the v4 repositoryOpts violation. -/
def helmV4RepoOptsMsg (name repo : String) : String :=
  "Helm v4 Chart '" ++ name ++ "' uses repositoryOpts.repo '" ++ repo ++ "'. " ++
    "For v4 Charts, use OCI registry URLs directly in the 'chart' property (e.g., oci://registry.example.com/charts/mychart)."

/-- Message of the v4 direct HTTPS-URL violation. -/
def helmV4HttpMsg (name chartRef : String) : String :=
  "Helm v4 Chart '" ++ name ++ "' uses HTTPS URL '" ++ chartRef ++ "'. " ++
    "Only OCI-based registries (oci://) are allowed."

/-- Message of the v4 repository-reference violation. -/
def helmV4RepoRefMsg (name chartRef : String) : String :=
  "Helm v4 Chart '" ++ name ++ "' uses repository reference '" ++ chartRef ++ "'. " ++
    "Only OCI-based registries (oci://) are allowed. Use format: oci://registry.example.com/charts/mychart"

/-- Message of the v4 missing-OCI-protocol violation. -/
def helmV4MissingOciMsg (name chartRef : String) : String :=
  "Helm v4 Chart '" ++ name ++ "' uses chart reference '" ++ chartRef ++ "' without OCI protocol. " ++
    "Only OCI-based registries (oci://) are allowed."

/-- Body of `helm-v4-require-oci-registry` (first pack). A truthy
`repositoryOpts.repo` is one violation, and — with no early return —
the truthy `chart` is then classified by an if/else-if chain: HTTP/HTTPS
URL, slash-qualified non-OCI non-local reference, or any other non-OCI
non-local reference; each chain arm is one violation. -/
def helmV4Validate (name : String) (chart : HelmChart) : List String :=
  (match chart.repositoryOpts.bind (·.repo) with
   | none => []
   | some repo => if repo = "" then [] else [helmV4RepoOptsMsg name repo]) ++
  (match chart.chart with
   | none => []
   | some chartRef =>
      if chartRef = "" then []
      else if strStartsWith chartRef "http://" || strStartsWith chartRef "https://" then
        [helmV4HttpMsg name chartRef]
      else if strContainsChar chartRef '/' && !strStartsWith chartRef "oci://" &&
              !strStartsWith chartRef "./" && !strStartsWith chartRef "../" then
        [helmV4RepoRefMsg name chartRef]
      else if !strStartsWith chartRef "oci://" && !strStartsWith chartRef "./" &&
              !strStartsWith chartRef "../" then
        [helmV4MissingOciMsg name chartRef]
      else [])

/-- The `helm-v4-require-oci-registry` rule: mandatory. -/
def helmV4Rule : PolicyRule HelmChart :=
  { name := "helm-v4-require-oci-registry"
  , enforcementLevel := .mandatory
  , validateResource := helmV4Validate }

/-- Message of the shared helper's direct HTTP/HTTPS-chart violation
(second pack). -/
def ociChartHttpMsg (chart : String) : String :=
  "Helm chart '" ++ chart ++ "' uses an HTTP/HTTPS URL. Only OCI-based Helm charts are allowed. " ++
    "Please use an oci:// reference instead of a remote repo URL."

/-- Message of the shared helper's non-OCI-repository violation
(second pack). -/
def ociChartNonOciRepoMsg (chart repo : String) : String :=
  "Helm chart '" ++ chart ++ "' uses a non-OCI repository '" ++ repo ++ "'. " ++
    "Only OCI-based Helm charts are allowed. Please use an oci:// reference instead of a remote repo URL."

/-- Function `validateOciHelmChart(chart, repositoryOpts, reportViolation)` of the
second pack, shared by its v3 and v4 rules: a falsy chart is skipped; a
direct HTTP/HTTPS chart URL is one violation (then return); else a truthy
`repositoryOpts?.repo` that does not start with `oci://` but starts with
`http://` or `https://` is one violation (then return); anything else is
allowed. -/
def validateOciHelmChart (chart : Option String) (repositoryOpts : Option RepositoryOpts) :
    List String :=
  match chart with
  | none => []
  | some c =>
      if c = "" then []
      else if strStartsWith c "http://" || strStartsWith c "https://" then
        [ociChartHttpMsg c]
      else
        match repositoryOpts.bind (·.repo) with
        | none => []
        | some repo =>
            if repo ≠ "" && !strStartsWith repo "oci://" &&
                (strStartsWith repo "http://" || strStartsWith repo "https://") then
              [ociChartNonOciRepoMsg c repo]
            else []

/-- An EC2 instance as `disallow-gpu-instance-types` reads it: the
optional `instanceType` string. -/
structure Ec2Instance where
  instanceType : Option String

/-- The ordered disallowed instance-type prefixes of
`disallow-gpu-instance-types`. -/
def disallowedPrefixes : List String := ["g", "p"]

/-- Message of the GPU instance-type violation. -/
def gpuViolationMsg (instanceType : String) : String :=
  "GPU and high-performance instance types (g*, p*) are not permitted by organization policy. " ++
    "Instance type '" ++ instanceType ++ "' is not allowed. Please use general-purpose instance types " ++
    "(t3, t4g, m5, m6i, etc.) unless you have explicit approval for GPU workloads."

/-- The prefix loop of `disallow-gpu-instance-types`: report on the first
prefix that matches and return. -/
def firstPrefixViolation (instanceType : String) : List String → List String
  | [] => []
  | p :: ps =>
      if strStartsWith instanceType p then [gpuViolationMsg instanceType]
      else firstPrefixViolation instanceType ps

/-- Body of `disallow-gpu-instance-types`: a falsy instance type is
skipped; otherwise the ordered prefix list is tested with `startsWith`,
failing on the first match. -/
def disallowGpuValidate (inst : Ec2Instance) : List String :=
  match inst.instanceType with
  | none => []
  | some it =>
      if it = "" then []
      else firstPrefixViolation it disallowedPrefixes

/-- The `disallow-gpu-instance-types` rule: mandatory. -/
def disallowGpuRule : PolicyRule Ec2Instance :=
  { name := "disallow-gpu-instance-types"
  , enforcementLevel := .mandatory
  , validateResource := fun _ inst => disallowGpuValidate inst }

/-- Modelled from the spec: a Violation record as the Run Aggregator
consumes it — rule name, message, and the rule's enforcement level. The
aggregator itself is not part of the sources under src/ (enforcement is
performed by the Pulumi host); §3 and §4.5 of the spec describe it. -/
structure Violation where
  ruleName : String
  message : String
  level : EnforcementLevel

/-- Modelled from the spec: the run-level report — every collected
violation plus the pass/fail outcome. -/
structure RunReport where
  violations : List Violation
  failed : Bool

/-- Modelled from the spec (§4.5 Run Aggregator): collect all violations
of a run; the run fails iff some violation carries the blocking
(mandatory) enforcement level. -/
def aggregateRun (vs : List Violation) : RunReport :=
  { violations := vs
  , failed := vs.any fun v => v.level == .mandatory }

/-! Helper lemmas. -/

/-- A guarded flat-map that emits one element per list entry failing a
membership test is the filter of the failing entries mapped to their
messages. -/
lemma flatMap_guard_eq_filter_map (f : String → String) (allowed l : List String) :
    (l.flatMap fun cap => if cap ∈ allowed then [] else [f cap])
      = (l.filter fun cap => decide (cap ∉ allowed)).map f := by
  induction l with
  | nil => rfl
  | cons a l ih =>
      by_cases h : a ∈ allowed
      · simp [List.flatMap_cons, List.filter_cons, h, ih]
      · simp [List.flatMap_cons, List.filter_cons, h, ih]

/-- A boolean-prefix list starting with `a` forces the larger list to
start with `a`. -/
lemma prefix_head {a : Char} {as l : List Char}
    (h : List.isPrefixOf (a :: as) l = true) : ∃ t, l = a :: t := by
  cases l with
  | nil => simp [List.isPrefixOf] at h
  | cons b bs =>
      simp [List.isPrefixOf] at h
      exact ⟨bs, by rw [h.1]⟩

/-- A string starting with `p` cannot also start with `q` when the first
characters of `p` and `q` differ. -/
lemma startsWith_disjoint {s p q : String} {a b : Char}
    (hp : p.data.head? = some a) (hq : q.data.head? = some b) (hab : a ≠ b)
    (hs : strStartsWith s p = true) : strStartsWith s q = false := by
  unfold strStartsWith at hs ⊢
  cases hpd : p.data with
  | nil => rw [hpd] at hp; simp at hp
  | cons a' as =>
      rw [hpd] at hp hs
      simp at hp
      cases hqd : q.data with
      | nil => rw [hqd] at hq; simp at hq
      | cons b' bs =>
          rw [hqd] at hq
          simp at hq
          obtain ⟨t, ht⟩ := prefix_head hs
          rw [ht]
          have hne : b' ≠ a' := by
            rw [hq, hp]
            exact fun hba => hab hba.symm
          simp [List.isPrefixOf, hne]

/-- A string starting with a nonempty prefix is nonempty. -/
lemma ne_empty_of_startsWith {s p : String} {a : Char}
    (hp : p.data.head? = some a) (hs : strStartsWith s p = true) : s ≠ "" := by
  intro he
  subst he
  unfold strStartsWith at hs
  cases hpd : p.data with
  | nil => rw [hpd] at hp; simp at hp
  | cons a' as =>
      rw [hpd] at hs
      have hd : ("" : String).data = [] := rfl
      rw [hd] at hs
      simp [List.isPrefixOf] at hs

/-! Theorems settling the claims. -/

/-- Claim C1: the capability check emits zero violations for a container
with no requested-capabilities list or one drawn entirely from the
13-entry allow-list, and otherwise exactly one violation per requested
capability outside the allow-list, in request order, duplicates each
reported. -/
theorem checkCapabilities_allowlist (c : Container) :
    (capsAdded c = none → checkCapabilities (some [c]) = []) ∧
    (∀ caps, capsAdded c = some caps →
      checkCapabilities (some [c])
          = (caps.filter fun cap => decide (cap ∉ allowedCapabilities)).map
              (capViolationMsg c) ∧
      ((∀ cap ∈ caps, cap ∈ allowedCapabilities) → checkCapabilities (some [c]) = [])) := by
  constructor
  · intro h
    simp [checkCapabilities, checkCapabilitiesContainer, h]
  · intro caps h
    have hmain : checkCapabilities (some [c])
        = (caps.filter fun cap => decide (cap ∉ allowedCapabilities)).map
            (capViolationMsg c) := by
      simp [checkCapabilities, checkCapabilitiesContainer, h,
        flatMap_guard_eq_filter_map]
    refine ⟨hmain, fun hall => ?_⟩
    rw [hmain]
    have hnil : (caps.filter fun cap => decide (cap ∉ allowedCapabilities)) = [] := by
      apply List.filter_eq_nil_iff.2
      intro a ha
      simp [hall a ha]
    rw [hnil]
    rfl

/-- Claim C1 witness: a container requesting `NET_ADMIN, CHOWN, NET_ADMIN`
gets exactly the two `NET_ADMIN` violations, in order. -/
theorem checkCapabilities_allowlist_witness :
    checkCapabilities
        (some [⟨"web", none, some ⟨some ⟨some ["NET_ADMIN", "CHOWN", "NET_ADMIN"]⟩⟩⟩])
      = [capViolationMsg ⟨"web", none, some ⟨some ⟨some ["NET_ADMIN", "CHOWN", "NET_ADMIN"]⟩⟩⟩ "NET_ADMIN",
         capViolationMsg ⟨"web", none, some ⟨some ⟨some ["NET_ADMIN", "CHOWN", "NET_ADMIN"]⟩⟩⟩ "NET_ADMIN"] :=
  (((checkCapabilities_allowlist
        ⟨"web", none, some ⟨some ⟨some ["NET_ADMIN", "CHOWN", "NET_ADMIN"]⟩⟩⟩).2
      ["NET_ADMIN", "CHOWN", "NET_ADMIN"] rfl).1).trans (by decide)

/-- Claim C2 counterexample: the empty image string contains no colon,
yet the image-tag check emits no violation for it (JavaScript `!image`
skips falsy images), refuting the claim that every image string with no
colon gets exactly one missing-tag violation. -/
theorem checkImageTags_empty_image_counterexample :
    strContainsChar "" ':' = false ∧
    checkImageTags (some [⟨"app", some "", none⟩]) = [] ∧
    checkImageTags (some [⟨"app", some "", none⟩])
      ≠ [missingTagMsg ⟨"app", some "", none⟩ ""] := by
  refine ⟨by decide, by decide, by decide⟩

/-- Claim C2 (amended to non-empty image strings): for a container whose
image is a non-empty string, the image-tag check emits exactly one
missing-tag violation when the image contains no colon, exactly one
mutable-tag violation when it contains a colon and ends in `:latest`,
zero violations otherwise, and never more than one violation. -/
theorem checkImageTags_nonempty (c : Container) (img : String)
    (h : c.image = some img) (hne : img ≠ "") :
    (strContainsChar img ':' = false →
       checkImageTags (some [c]) = [missingTagMsg c img]) ∧
    (strContainsChar img ':' = true → strEndsWith img ":latest" = true →
       checkImageTags (some [c]) = [latestTagMsg c img]) ∧
    (strContainsChar img ':' = true → strEndsWith img ":latest" = false →
       checkImageTags (some [c]) = []) ∧
    (checkImageTags (some [c])).length ≤ 1 := by
  refine ⟨fun h1 => ?_, fun h1 h2 => ?_, fun h1 h2 => ?_, ?_⟩
  · simp [checkImageTags, checkImageTagsContainer, h, hne, h1]
  · simp [checkImageTags, checkImageTagsContainer, h, hne, h1, h2]
  · simp [checkImageTags, checkImageTagsContainer, h, hne, h1, h2]
  · by_cases h1 : strContainsChar img ':'
    · by_cases h2 : strEndsWith img ":latest"
      · simp [checkImageTags, checkImageTagsContainer, h, hne, h1, h2]
      · simp [checkImageTags, checkImageTagsContainer, h, hne, h1, h2]
    · simp [checkImageTags, checkImageTagsContainer, h, hne, h1]

/-- Claim C2 witness: `nginx` gets exactly the missing-tag violation. -/
theorem checkImageTags_nonempty_witness :
    checkImageTags (some [⟨"app", some "nginx", none⟩])
      = [missingTagMsg ⟨"app", some "nginx", none⟩ "nginx"] :=
  (checkImageTags_nonempty ⟨"app", some "nginx", none⟩ "nginx" rfl (by decide)).1
    (by decide)

/-- Claim C10: a container whose image is absent (`undefined`) or empty
is silently skipped by the image-tag check, and the remaining containers
are still checked. -/
theorem image_falsy_skipped (c : Container) (rest : List Container)
    (h : c.image = none ∨ c.image = some "") :
    checkImageTags (some (c :: rest)) = checkImageTags (some rest) := by
  rcases h with h | h <;>
    simp [checkImageTags, checkImageTagsContainer, h]

/-- Claim C10 witness: an image-less container ahead of a tag-less one
leaves exactly the tag-less container's violation. -/
theorem image_falsy_skipped_witness :
    checkImageTags (some [⟨"a", none, none⟩, ⟨"b", some "nginx", none⟩])
      = checkImageTags (some [⟨"b", some "nginx", none⟩]) :=
  image_falsy_skipped ⟨"a", none, none⟩ [⟨"b", some "nginx", none⟩] (Or.inl rfl)

/-- First character of the `http://` scheme. -/
lemma http_head : ("http://" : String).data.head? = some 'h' := by decide

/-- First character of the `https://` scheme. -/
lemma https_head : ("https://" : String).data.head? = some 'h' := by decide

/-- First character of the `oci://` scheme. -/
lemma oci_head : ("oci://" : String).data.head? = some 'o' := by decide

/-- First character of the local `./` marker. -/
lemma dot_head : ("./" : String).data.head? = some '.' := by decide

/-- First character of the local `../` marker. -/
lemma dotdot_head : ("../" : String).data.head? = some '.' := by decide

/-- A chart reference that is OCI or local cannot be an HTTP/HTTPS URL. -/
lemma not_http_of_url_marker {s : String}
    (h : strStartsWith s "oci://" = true ∨ strStartsWith s "./" = true ∨
         strStartsWith s "../" = true) :
    strStartsWith s "http://" = false ∧ strStartsWith s "https://" = false := by
  rcases h with h | h | h
  · exact ⟨startsWith_disjoint oci_head http_head (by decide) h,
      startsWith_disjoint oci_head https_head (by decide) h⟩
  · exact ⟨startsWith_disjoint dot_head http_head (by decide) h,
      startsWith_disjoint dot_head https_head (by decide) h⟩
  · exact ⟨startsWith_disjoint dotdot_head http_head (by decide) h,
      startsWith_disjoint dotdot_head https_head (by decide) h⟩

/-- An HTTP/HTTPS URL is nonempty. -/
lemma ne_empty_of_http {r : String}
    (h : strStartsWith r "http://" = true ∨ strStartsWith r "https://" = true) :
    r ≠ "" := by
  rcases h with h | h
  · exact ne_empty_of_startsWith http_head h
  · exact ne_empty_of_startsWith https_head h

/-- An HTTP/HTTPS URL does not carry the `oci://` scheme. -/
lemma not_oci_of_http {r : String}
    (h : strStartsWith r "http://" = true ∨ strStartsWith r "https://" = true) :
    strStartsWith r "oci://" = false := by
  rcases h with h | h
  · exact startsWith_disjoint http_head oci_head (by decide) h
  · exact startsWith_disjoint https_head oci_head (by decide) h

/-- The boolean HTTP-or-HTTPS test of the sources, from either disjunct. -/
lemma http_or_eq_true {r : String}
    (h : strStartsWith r "http://" = true ∨ strStartsWith r "https://" = true) :
    (strStartsWith r "http://" || strStartsWith r "https://") = true := by
  rcases h with h | h <;> simp [h]

/-- Claim C3 counterexample: the v4 rule of the first pack has no early
return after the repositoryOpts violation, so chart `postgresql` with an
HTTPS repository yields two violations, not exactly one. -/
theorem helmV4_http_repo_two_violations :
    (helmV4Validate "postgresql-chart"
        ⟨some "postgresql", some ⟨some "https://charts.bitnami.com/bitnami"⟩⟩).length
      = 2 ∧
    (helmV4Validate "postgresql-chart"
        ⟨some "postgresql", some ⟨some "https://charts.bitnami.com/bitnami"⟩⟩).length
      ≠ 1 := by
  exact ⟨by decide, by decide⟩

/-- Claim C3 (amended): with an HTTP/HTTPS repository option, the v3 rule
of the first pack emits exactly one non-OCI-repository violation; the v4
rule of the first pack emits the distinct repositoryOpts violation once
(no duplicate for the repo condition) but follows it with a
chart-reference violation when the chart itself is not OCI or local, as
for chart `postgresql`; the shared helper of the second pack emits
exactly one non-OCI-repository violation and always returns at most one
violation per invocation. -/
theorem helm_http_repo_rules (n c r : String)
    (h : strStartsWith r "http://" = true ∨ strStartsWith r "https://" = true) :
    helmV3Validate n ⟨some c, some ⟨some r⟩⟩ = [helmV3NonOciMsg n r] ∧
    helmV4Validate n ⟨some "postgresql", some ⟨some r⟩⟩
      = [helmV4RepoOptsMsg n r, helmV4MissingOciMsg n "postgresql"] ∧
    validateOciHelmChart (some "nginx") (some ⟨some r⟩)
      = [ociChartNonOciRepoMsg "nginx" r] ∧
    (∀ ch ro, (validateOciHelmChart ch ro).length ≤ 1) ∧
    helmV3NonOciMsg "nginx" "https://charts.bitnami.com/bitnami"
      ≠ helmV4RepoOptsMsg "nginx" "https://charts.bitnami.com/bitnami" := by
  have hne := ne_empty_of_http h
  have hoci := not_oci_of_http h
  have hor := http_or_eq_true h
  refine ⟨?_, ?_, ?_, ?_, by decide⟩
  · simp [helmV3Validate, Option.bind, hne, hoci]
  · have h1 : strStartsWith "postgresql" "http://" = false := by decide
    have h2 : strStartsWith "postgresql" "https://" = false := by decide
    have h3 : strContainsChar "postgresql" '/' = false := by decide
    have h4 : strStartsWith "postgresql" "oci://" = false := by decide
    have h5 : strStartsWith "postgresql" "./" = false := by decide
    have h6 : strStartsWith "postgresql" "../" = false := by decide
    simp [helmV4Validate, Option.bind, hne, h1, h2, h3, h4, h5, h6]
  · have h1 : strStartsWith "nginx" "http://" = false := by decide
    have h2 : strStartsWith "nginx" "https://" = false := by decide
    simp [validateOciHelmChart, Option.bind, h1, h2, hne, hoci, hor]
  · intro ch ro
    cases ch with
    | none => simp [validateOciHelmChart]
    | some c' =>
        by_cases hc : c' = ""
        · simp [validateOciHelmChart, hc]
        · by_cases hh : (strStartsWith c' "http://" || strStartsWith c' "https://") = true
          · simp [validateOciHelmChart, hc, hh]
          · cases hro : ro.bind (·.repo) with
            | none => simp [validateOciHelmChart, hc, hh, hro]
            | some repo =>
                simp only [validateOciHelmChart, hc, hh, hro]
                split <;> try simp
                all_goals split <;> simp

/-- Claim C3 witness: the v3 rule at chart `nginx` with the Bitnami HTTPS
repository emits exactly the non-OCI-repository violation. -/
theorem helm_http_repo_rules_witness :
    helmV3Validate "nginx"
        ⟨some "nginx", some ⟨some "https://charts.bitnami.com/bitnami"⟩⟩
      = [helmV3NonOciMsg "nginx" "https://charts.bitnami.com/bitnami"] :=
  (helm_http_repo_rules "nginx" "nginx" "https://charts.bitnami.com/bitnami"
    (Or.inr (by decide))).1

/-- Claim C4 counterexample: the v3 rule of the first pack never reads
the chart reference, so a direct HTTPS chart URL with no repository
option yields zero violations under it, not exactly one; and the first
pack's v4 rule is not repository-option-agnostic either — the same URL
with an HTTPS repository option yields two violations under it. -/
theorem helmV3_ignores_direct_url :
    strStartsWith "https://charts.bitnami.com/bitnami/nginx-1.2.3.tgz" "https://"
      = true ∧
    helmV3Validate "nginx"
        ⟨some "https://charts.bitnami.com/bitnami/nginx-1.2.3.tgz", none⟩ = [] ∧
    (helmV3Validate "nginx"
        ⟨some "https://charts.bitnami.com/bitnami/nginx-1.2.3.tgz", none⟩).length
      ≠ 1 ∧
    (helmV4Validate "nginx"
        ⟨some "https://charts.bitnami.com/bitnami/nginx-1.2.3.tgz",
         some ⟨some "https://charts.bitnami.com/bitnami"⟩⟩).length = 2 := by
  exact ⟨by decide, rfl, by decide, by decide⟩

/-- Claim C4 (amended): for a chart reference starting with `http://` or
`https://`, the shared helper of the second pack (used by both its v3 and
v4 rules) emits exactly one direct-URL violation regardless of repository
options; the v4 rule of the first pack emits exactly one direct-URL
violation when no repository option is present; the v3 rule of the first
pack inspects only the repository option and emits zero violations for
the direct chart URL. -/
theorem direct_url_chart_rules (n ch : String) (ro : Option RepositoryOpts)
    (h : strStartsWith ch "http://" = true ∨ strStartsWith ch "https://" = true) :
    validateOciHelmChart (some ch) ro = [ociChartHttpMsg ch] ∧
    helmV4Validate n ⟨some ch, none⟩ = [helmV4HttpMsg n ch] ∧
    helmV3Validate n ⟨some ch, none⟩ = [] := by
  have hne := ne_empty_of_http h
  have hor := http_or_eq_true h
  refine ⟨?_, ?_, rfl⟩
  · simp [validateOciHelmChart, hne, hor]
  · simp [helmV4Validate, Option.bind, hne, hor]

/-- Claim C4 witness: the Bitnami tarball URL under the shared helper. -/
theorem direct_url_chart_rules_witness :
    validateOciHelmChart
        (some "https://charts.bitnami.com/bitnami/nginx-1.2.3.tgz") none
      = [ociChartHttpMsg "https://charts.bitnami.com/bitnami/nginx-1.2.3.tgz"] :=
  (direct_url_chart_rules "nginx" "https://charts.bitnami.com/bitnami/nginx-1.2.3.tgz"
    none (Or.inr (by decide))).1

/-- Claim C5: a chart reference starting with `oci://`, `./` or `../`
with no repository option is compliant under the v3 and v4 rules of the
first pack and under the shared helper of the second pack. -/
theorem oci_local_chart_compliant (n ch : String)
    (h : strStartsWith ch "oci://" = true ∨ strStartsWith ch "./" = true ∨
         strStartsWith ch "../" = true) :
    helmV3Validate n ⟨some ch, none⟩ = [] ∧
    helmV4Validate n ⟨some ch, none⟩ = [] ∧
    validateOciHelmChart (some ch) none = [] := by
  obtain ⟨hh1, hh2⟩ := not_http_of_url_marker h
  have hne : ch ≠ "" := by
    rcases h with h | h | h
    · exact ne_empty_of_startsWith oci_head h
    · exact ne_empty_of_startsWith dot_head h
    · exact ne_empty_of_startsWith dotdot_head h
  refine ⟨rfl, ?_, ?_⟩
  · rcases h with h | h | h <;>
      simp [helmV4Validate, Option.bind, hne, hh1, hh2, h]
  · simp [validateOciHelmChart, Option.bind, hne, hh1, hh2]

/-- Claim C5 witness: `oci://ghcr.io/org/chart` is compliant under the
first pack's v4 rule. -/
theorem oci_local_chart_compliant_witness :
    helmV4Validate "test" ⟨some "oci://ghcr.io/org/chart", none⟩ = [] :=
  (oci_local_chart_compliant "test" "oci://ghcr.io/org/chart" (Or.inl (by decide))).2.1

/-- Claim C6: the `no-public-services` rule is mandatory and emits
exactly one violation for a Service of type `LoadBalancer` and zero for
type `ClusterIP` or an absent type. -/
theorem no_public_services_spec (svc : Service) :
    noPublicServicesRule.enforcementLevel = EnforcementLevel.mandatory ∧
    (∀ sp, svc.spec = some sp →
      (sp.type = some "LoadBalancer" →
         noPublicServicesRule.validateResource "svc" svc = [loadBalancerMsg]) ∧
      ((sp.type = some "ClusterIP" ∨ sp.type = none) →
         noPublicServicesRule.validateResource "svc" svc = [])) := by
  refine ⟨rfl, fun sp hsp => ⟨fun ht => ?_, fun ht => ?_⟩⟩
  · simp [noPublicServicesRule, noPublicServicesValidate, hsp, ht]
  · rcases ht with ht | ht <;>
      simp [noPublicServicesRule, noPublicServicesValidate, hsp, ht]

/-- Claim C6 witness: a LoadBalancer Service gets exactly the blocking
violation. -/
theorem no_public_services_spec_witness :
    noPublicServicesRule.validateResource "svc" ⟨some ⟨some "LoadBalancer"⟩⟩
      = [loadBalancerMsg] :=
  ((no_public_services_spec ⟨some ⟨some "LoadBalancer"⟩⟩).2 ⟨some "LoadBalancer"⟩ rfl).1
    rfl

/-- Claim C7: when any segment of `spec.template.spec` is absent on a
workload controller (Deployment, StatefulSet, Job — the three rule bodies
are identical), both container-based checks report nothing; the embedded
validators are total, so the evaluation cannot fail. -/
theorem workload_missing_template_spec (w : Workload)
    (h : w.spec = none ∨ (∃ ws, w.spec = some ws ∧ ws.template = none) ∨
         (∃ ws t, w.spec = some ws ∧ ws.template = some t ∧ t.spec = none)) :
    disallowCapabilitiesWorkload w = [] ∧ disallowLatestTagWorkload w = [] := by
  have hps : podSpecOf w = none := by
    rcases h with h | ⟨ws, h1, h2⟩ | ⟨ws, t, h1, h2, h3⟩ <;>
      simp [podSpecOf, *]
  simp [disallowCapabilitiesWorkload, disallowLatestTagWorkload, hps]

/-- Claim C7 witness: a Deployment whose pod template has no `spec`
yields zero violations from both container-based rules. -/
theorem workload_missing_template_spec_witness :
    disallowCapabilitiesWorkload ⟨some ⟨some ⟨none⟩⟩⟩ = [] ∧
    disallowLatestTagWorkload ⟨some ⟨some ⟨none⟩⟩⟩ = [] :=
  workload_missing_template_spec ⟨some ⟨some ⟨none⟩⟩⟩
    (Or.inr (Or.inr ⟨⟨some ⟨none⟩⟩, ⟨none⟩, rfl, rfl, rfl⟩))

/-- Claim C8: the run aggregation fails exactly when some collected
violation is blocking (mandatory), and the report carries every
violation, blocking and advisory alike, whatever the outcome. -/
theorem run_aggregator_spec (vs : List Violation) :
    ((aggregateRun vs).failed = true ↔
      ∃ v ∈ vs, v.level = EnforcementLevel.mandatory) ∧
    (aggregateRun vs).violations = vs := by
  constructor
  · simp [aggregateRun, List.any_eq_true]
  · rfl

/-- Claim C8 witness: two advisory violations pass; an advisory plus a
mandatory violation fails, with both still in the report. -/
theorem run_aggregator_spec_witness :
    (aggregateRun [⟨"r1", "m1", EnforcementLevel.advisory⟩,
       ⟨"r2", "m2", EnforcementLevel.advisory⟩]).failed = false ∧
    (aggregateRun [⟨"r1", "m1", EnforcementLevel.advisory⟩,
       ⟨"r3", "m3", EnforcementLevel.mandatory⟩]).failed = true ∧
    (aggregateRun [⟨"r1", "m1", EnforcementLevel.advisory⟩,
       ⟨"r3", "m3", EnforcementLevel.mandatory⟩]).violations
      = [⟨"r1", "m1", EnforcementLevel.advisory⟩,
         ⟨"r3", "m3", EnforcementLevel.mandatory⟩] := by
  refine ⟨?_, ?_, (run_aggregator_spec _).2⟩
  · have h := (run_aggregator_spec [⟨"r1", "m1", EnforcementLevel.advisory⟩,
      ⟨"r2", "m2", EnforcementLevel.advisory⟩]).1
    by_contra hf
    simp at hf
    rcases h.1 hf with ⟨v, hv, hlev⟩
    rcases hv with hv | hv <;> simp_all
  · exact (run_aggregator_spec _).1.2
      ⟨⟨"r3", "m3", EnforcementLevel.mandatory⟩, by simp, rfl⟩

/-- Claim C9: the GPU instance-type rule is mandatory; it tests
`startsWith` against the ordered prefixes `g` then `p`, emitting exactly
one violation on the first match and none when neither matches. -/
theorem gpu_instance_type_rule (s : String) :
    disallowGpuRule.enforcementLevel = EnforcementLevel.mandatory ∧
    disallowGpuRule.validateResource "i" ⟨some s⟩
      = (if strStartsWith s "g" then [gpuViolationMsg s]
         else if strStartsWith s "p" then [gpuViolationMsg s]
         else []) ∧
    (strStartsWith s "g" = false → strStartsWith s "p" = false →
       disallowGpuRule.validateResource "i" ⟨some s⟩ = []) := by
  have hmain : disallowGpuRule.validateResource "i" ⟨some s⟩
      = (if strStartsWith s "g" then [gpuViolationMsg s]
         else if strStartsWith s "p" then [gpuViolationMsg s]
         else []) := by
    by_cases he : s = ""
    · subst he
      decide
    · simp [disallowGpuRule, disallowGpuValidate, disallowedPrefixes,
        firstPrefixViolation, he]
  refine ⟨rfl, hmain, fun h1 h2 => ?_⟩
  rw [hmain, h1, h2]
  rfl

/-- Claim C9 witness: `g4dn.xlarge` matches the first prefix and is
rejected with one violation; `t3.micro` matches neither and passes. -/
theorem gpu_instance_type_rule_witness :
    disallowGpuRule.validateResource "i" ⟨some "g4dn.xlarge"⟩
      = [gpuViolationMsg "g4dn.xlarge"] ∧
    disallowGpuRule.validateResource "i" ⟨some "t3.micro"⟩ = [] := by
  refine ⟨?_, (gpu_instance_type_rule "t3.micro").2.2 (by decide) (by decide)⟩
  have h := (gpu_instance_type_rule "g4dn.xlarge").2.1
  rw [h]
  decide

end PolicyPack
